import Mathlib

/-!
# Verification of the Logger-Util repository (`src/logger.py`)

Shallow embedding of `src/logger.py` and of the fragment of the Python
`logging` backend that the file relies on.

Modelling conventions:

* Backend levels are the numeric constants of the `logging` module
  (DEBUG = 10, INFO = 20, WARNING = 30, ERROR = 40, CRITICAL = 50,
  NOTSET = 0, with the aliases WARN = 30 and FATAL = 50).
* The backend registry (`logging.getLogger`) is modelled as an association
  list from logger names to `BackendLogger` states.  Since `logging.getLogger`
  returns one object per name, an object reference to a backend logger is
  modelled by its name (the registry key).
* Handlers carry their kind (console / file path), level, format string and
  the list of records they have emitted (`written`), standing for the lines
  that appeared on stdout or in the file.  Timestamp rendering is out of
  scope, so a written record is the pair (severity, message).
* The filesystem is modelled as the list of existing directories and the
  list of files that have been opened/created.  `os.makedirs` is modelled as
  adding the leaf directory (parent components of a multi-level directory
  are elided; the default paths of this repository use the single-level
  directory `logs`).
* `datetime.now().strftime('%Y%m%d')` is modelled by passing the formatted
  date string `today` as an explicit parameter; `formatYYYYMMDD` renders a
  (year, month, day) triple the way `%Y%m%d` does.
* Emission follows the backend semantics: a record at severity `s` on logger
  `n` is dropped when `s` is below the effective level of `n` (own level,
  or the nearest ancestor with a non-NOTSET level, or the root default
  WARNING); otherwise every handler with handler level ≤ `s` on `n` and on
  each ancestor of `n` (propagation is never disabled in this repository,
  and the root logger never acquires handlers here) writes the record.
-/

namespace LoggerUtil

/-- `logging.DEBUG` -/
def DEBUG : Nat := 10
/-- `logging.INFO` -/
def INFO : Nat := 20
/-- `logging.WARNING` -/
def WARNING : Nat := 30
/-- `logging.ERROR` -/
def ERROR : Nat := 40
/-- `logging.CRITICAL` -/
def CRITICAL : Nat := 50
/-- `logging.NOTSET` -/
def NOTSET : Nat := 0
/-- `logging.WARN`, an alias of `logging.WARNING` -/
def WARN : Nat := 30
/-- `logging.FATAL`, an alias of `logging.CRITICAL` -/
def FATAL : Nat := 50

/-- Python `str.upper()`, character-wise.  `Char.toUpper` uppercases the
ASCII range only, while Python's `str.upper()` also maps some non-ASCII
characters into it (e.g. ı → I, ſ → S), so this model agrees with the
program exactly on ASCII strings; theorems that quantify over arbitrary
level strings therefore carry an `asciiOnly` hypothesis. -/
def upperAscii (s : String) : String :=
  String.mk (s.data.map Char.toUpper)

/-- Whether every character of the string is ASCII: on these strings
`upperAscii` coincides with Python's `str.upper()`. -/
def asciiOnly (s : String) : Bool :=
  s.data.all (fun c => c.toNat < 128)

/-- The attribute names of the `logging` module that are reachable through
`getattr(logging, level.upper(), ...)` but are not integer level constants:
`BASIC_FORMAT` (a format string) and `_STYLES` (a dict).  When the lookup
finds one of these, the value fed to the backend's `setLevel` is not an
integer and `setLevel` raises (`ValueError` / `TypeError`) before any state
is changed. -/
def nonLevelUpperAttrs : List String := ["BASIC_FORMAT", "_STYLES"]

/-- The level arguments on which the total parse `getattrLevel` below is
faithful to the program and no exception is raised: ASCII strings (where
`upperAscii` equals Python's `str.upper()`) whose upper-cased form is not
one of the module's non-integer attributes (where `setLevel` would raise). -/
abbrev levelArgSafe (level : String) : Prop :=
  asciiOnly level = true ∧ upperAscii level ∉ nonLevelUpperAttrs

/-- `getattr(logging, level.upper(), logging.INFO)` on the non-raising
path: the lookup among the module's all-uppercase attributes resolves the
eight integer level constants and otherwise falls back to `logging.INFO`.
The two reachable non-integer attributes (`nonLevelUpperAttrs`), on which
the subsequent `setLevel` raises instead of producing a level, are modelled
separately by `Logger.init_checked` and `Logger.set_level_checked`. -/
def getattrLevel (level : String) : Nat :=
  let u := upperAscii level
  if u = "DEBUG" then DEBUG
  else if u = "INFO" then INFO
  else if u = "WARNING" then WARNING
  else if u = "ERROR" then ERROR
  else if u = "CRITICAL" then CRITICAL
  else if u = "WARN" then WARN
  else if u = "FATAL" then FATAL
  else if u = "NOTSET" then NOTSET
  else INFO

/-- The kind of a handler: `logging.StreamHandler(sys.stdout)` or
`logging.FileHandler(path)`. -/
inductive HandlerKind where
  | console : HandlerKind
  | file : String → HandlerKind
  deriving DecidableEq

/-- A backend handler: its kind, its level, its format string, and the
records it has written so far (pairs of severity and message). -/
structure Handler where
  kind : HandlerKind
  level : Nat
  fmt : String
  written : List (Nat × String)
  deriving DecidableEq

/-- A backend logger as held in the `logging` registry: its level and its
directly attached handlers. -/
structure BackendLogger where
  level : Nat
  handlers : List Handler
  deriving DecidableEq

/-- A freshly created backend logger: level NOTSET, no handlers. -/
def freshLogger : BackendLogger := { level := NOTSET, handlers := [] }

/-- The backend registry: association list from logger name to state. -/
abbrev Registry := List (String × BackendLogger)

/-- Look up a logger by name. -/
def lookupLogger (r : Registry) (n : String) : Option BackendLogger :=
  match r with
  | [] => none
  | kv :: rest => if kv.1 = n then some kv.2 else lookupLogger rest n

/-- `logging.getLogger(n)`: create the entry when absent. -/
def ensureLogger (r : Registry) (n : String) : Registry :=
  if (lookupLogger r n).isSome then r else r ++ [(n, freshLogger)]

/-- Apply a state change to the logger named `n` (no-op when absent). -/
def updateLogger (r : Registry) (n : String) (f : BackendLogger → BackendLogger) :
    Registry :=
  r.map (fun kv => if kv.1 = n then (kv.1, f kv.2) else kv)

/-- The level stored on the logger named `n` (NOTSET when absent, matching
the transparent behaviour of never-created loggers in the hierarchy). -/
def loggerLevel (r : Registry) (n : String) : Nat :=
  match lookupLogger r n with
  | some bl => bl.level
  | none => NOTSET

/-- The handlers directly attached to the logger named `n`. -/
def handlersOf (r : Registry) (n : String) : List Handler :=
  match lookupLogger r n with
  | some bl => bl.handlers
  | none => []

/-- The proper dotted-name ancestors of `n`, nearest first: for `"A.B.C"`
this is `["A.B", "A"]` (the root logger is handled separately). -/
def parentChain (n : String) : List String :=
  let parts := n.splitOn "."
  ((List.range (parts.length - 1)).reverse).map
    (fun k => String.intercalate "." (parts.take (k + 1)))

/-- `Logger.getEffectiveLevel`: the level of the nearest logger in the
chain with a non-NOTSET level, or the root default WARNING (this repository
never configures the root logger). -/
def effectiveLevel (r : Registry) (n : String) : Nat :=
  match (n :: parentChain n).find? (fun m => loggerLevel r m ≠ 0) with
  | some m => loggerLevel r m
  | none => WARNING

/-- A handler handles a record whose severity is at or above its level. -/
def writeHandler (s : Nat) (msg : String) (h : Handler) : Handler :=
  if h.level ≤ s then { h with written := h.written ++ [(s, msg)] } else h

/-- Deliver a record to every handler of one backend logger. -/
def handleRecord (s : Nat) (msg : String) (bl : BackendLogger) : BackendLogger :=
  { bl with handlers := bl.handlers.map (writeHandler s msg) }

/-- Deliver a record to the handlers of every logger in the given chain. -/
def deliverChain (chain : List String) (s : Nat) (msg : String) (r : Registry) :
    Registry :=
  r.map (fun kv => if kv.1 ∈ chain then (kv.1, handleRecord s msg kv.2) else kv)

/-- `logging.Logger.debug/info/...` at severity `s` on logger `n`: dropped
below the effective level, otherwise delivered to the handlers of `n` and
of every ancestor of `n` (propagation is never disabled here, and the root
logger has no handlers in this repository). -/
def logAt (r : Registry) (n : String) (s : Nat) (msg : String) : Registry :=
  if s < effectiveLevel r n then r
  else deliverChain (n :: parentChain n) s msg r

/-! ## Filesystem model and `os.path.dirname` -/

/-- The prefix of a character list up to and including its last `'/'`
(empty when there is no `'/'`), i.e. `p[:p.rfind('/') + 1]`. -/
def headThroughLastSlash : List Char → List Char
  | [] => []
  | c :: cs =>
    match headThroughLastSlash cs with
    | [] => if c = '/' then [c] else []
    | t => c :: t

/-- Remove trailing `'/'` characters. -/
def rstripSlashes (cs : List Char) : List Char :=
  ((cs.reverse).dropWhile (fun c => c = '/')).reverse

/-- `os.path.dirname` (POSIX): everything up to the last `'/'`, with
trailing slashes stripped unless the head is all slashes. -/
def dirname (p : String) : String :=
  let head := headThroughLastSlash p.data
  if head.isEmpty then ""
  else if head.all (fun c => c = '/') then String.mk head
  else String.mk (rstripSlashes head)

/-- Process-wide state: the backend registry, the existing directories and
files, and the memoized `_central_logger` handle (a backend logger name). -/
structure World where
  registry : Registry
  dirs : List String
  files : List String
  central : Option String
  deriving DecidableEq

/-- A world with an empty registry, empty filesystem, and no memoized
central logger: the state at process start. -/
def emptyWorld : World :=
  { registry := [], dirs := [], files := [], central := none }

/-! ## The `Logger` facade class -/

/-- Zero-pad a number to two digits (`%m`, `%d`). -/
def pad2 (n : Nat) : String :=
  if n < 10 then "0" ++ toString n else toString n

/-- Zero-pad a number to four digits (`%Y`). -/
def pad4 (n : Nat) : String :=
  if n < 10 then "000" ++ toString n
  else if n < 100 then "00" ++ toString n
  else if n < 1000 then "0" ++ toString n
  else toString n

/-- `datetime.now().strftime('%Y%m%d')` for a given calendar date. -/
def formatYYYYMMDD (y m d : Nat) : String :=
  pad4 y ++ pad2 m ++ pad2 d

/-- The default log file path `f"logs/{name}_{date}.log"`. -/
def defaultLogPath (name today : String) : String :=
  "logs/" ++ name ++ "_" ++ today ++ ".log"

/-- Python's `log_file_path or default`: both `None` and the falsy empty
string resolve to the default path. -/
def resolvePath (log_file_path : Option String) (dflt : String) : String :=
  match log_file_path with
  | some s => if s = "" then dflt else s
  | none => dflt

/-- Console format: `'%(asctime)s - %(name)s - %(levelname)s - %(message)s'`. -/
def consoleFormat : String :=
  "%(asctime)s - %(name)s - %(levelname)s - %(message)s"

/-- File format, more detailed (adds filename, line number, function). -/
def fileFormat : String :=
  "%(asctime)s - %(name)s - %(levelname)s - %(filename)s:%(lineno)d - %(funcName)s - %(message)s"

/-- The console handler attached by `_setup_console_handler`. -/
def consoleHandler (lvl : Nat) : Handler :=
  { kind := HandlerKind.console, level := lvl, fmt := consoleFormat, written := [] }

/-- The file handler attached by `_setup_file_handler`. -/
def fileHandler (lvl : Nat) (path : String) : Handler :=
  { kind := HandlerKind.file path, level := lvl, fmt := fileFormat, written := [] }

/-- The `Logger` facade object: the fields set in `__init__`.  The field
`logger` holds `self.logger = logging.getLogger(self.name)`, i.e. the
registry key of the wrapped backend logger. -/
structure Logger where
  name : String
  level : Nat
  log_to_file : Bool
  log_file_path : String
  logger : String
  deriving DecidableEq

/-- `Logger._setup_console_handler`: attach a console handler at the
facade's level with the console format. -/
def Logger.setupConsoleHandler (f : Logger) (w : World) : World :=
  let r := updateLogger w.registry f.logger
    (fun bl => { bl with handlers := bl.handlers ++ [consoleHandler f.level] })
  { w with registry := r }

/-- `Logger._setup_file_handler`: create the log directory when needed
(`os.makedirs`), open the log file (`logging.FileHandler` creates it), and
attach a file handler at the facade's level with the detailed format. -/
def Logger.setupFileHandler (f : Logger) (w : World) : World :=
  let logDir := dirname f.log_file_path
  let dirs := if logDir ≠ "" ∧ logDir ∉ w.dirs then w.dirs ++ [logDir] else w.dirs
  let files := if f.log_file_path ∈ w.files then w.files
    else w.files ++ [f.log_file_path]
  let r := updateLogger w.registry f.logger
    (fun bl => { bl with handlers := bl.handlers ++ [fileHandler f.level f.log_file_path] })
  { w with dirs := dirs, files := files, registry := r }

/-- `Logger.__init__(name, level, log_to_file, log_file_path, verbose)`:
resolve the effective level (`DEBUG` when verbose, else
`getattr(logging, level.upper(), logging.INFO)`), resolve the file path
(default `logs/{name}_{YYYYMMDD}.log`), fetch/create the backend logger,
set its level, clear its handlers, attach the console handler, and attach
the file handler when `log_to_file`. -/
def Logger.init (name level : String) (log_to_file : Bool)
    (log_file_path : Option String) (verbose : Bool) (today : String)
    (w : World) : Logger × World :=
  let lvl := if verbose then DEBUG else getattrLevel level
  let path := resolvePath log_file_path (defaultLogPath name today)
  let f : Logger :=
    { name := name, level := lvl, log_to_file := log_to_file,
      log_file_path := path, logger := name }
  let r := ensureLogger w.registry name
  let r := updateLogger r name (fun bl => { bl with level := lvl })
  let r := updateLogger r name (fun bl => { bl with handlers := [] })
  let w := { w with registry := r }
  let w := f.setupConsoleHandler w
  let w := if log_to_file then f.setupFileHandler w else w
  (f, w)

/-- `Logger.__init__` including the backend's error path: when `verbose`
is false and the `getattr` lookup finds one of the module's non-integer
attributes, `self.logger.setLevel(self.level)` raises before the handlers
are cleared or attached — the registry keeps the logger's pre-existing
level and handler set (`logging.getLogger(name)` on the line before has
already created the entry when absent) and the exception propagates.  On
every other argument the construction runs to completion as `Logger.init`.
The error value is the offending upper-cased attribute name, paired with
the process state at the raise. -/
def Logger.init_checked (name level : String) (log_to_file : Bool)
    (log_file_path : Option String) (verbose : Bool) (today : String)
    (w : World) : Except (String × World) (Logger × World) :=
  if verbose = false ∧ upperAscii level ∈ nonLevelUpperAttrs then
    Except.error (upperAscii level, { w with registry := ensureLogger w.registry name })
  else Except.ok (Logger.init name level log_to_file log_file_path verbose today w)

/-- `Logger.get_logger(module_name)`: with a truthy module name, the child
backend logger keyed `f"{self.name}.{module_name}"` (created when absent);
otherwise `self.logger`.  An empty string is falsy in Python, hence treated
like `None`. -/
def Logger.get_logger (f : Logger) (module_name : Option String) (r : Registry) :
    String × Registry :=
  match module_name with
  | some m =>
    if m = "" then (f.logger, r)
    else
      let nm := f.name ++ "." ++ m
      (nm, ensureLogger r nm)
  | none => (f.logger, r)

/-- `Logger.debug(message)`: forwards to `self.logger.debug`. -/
def Logger.debug (f : Logger) (msg : String) (r : Registry) : Registry :=
  logAt r f.logger DEBUG msg

/-- `Logger.info(message)`: forwards to `self.logger.info`. -/
def Logger.info (f : Logger) (msg : String) (r : Registry) : Registry :=
  logAt r f.logger INFO msg

/-- `Logger.warning(message)`: forwards to `self.logger.warning`. -/
def Logger.warning (f : Logger) (msg : String) (r : Registry) : Registry :=
  logAt r f.logger WARNING msg

/-- `Logger.error(message)`: forwards to `self.logger.error`. -/
def Logger.error (f : Logger) (msg : String) (r : Registry) : Registry :=
  logAt r f.logger ERROR msg

/-- `Logger.critical(message)`: forwards to `self.logger.critical`. -/
def Logger.critical (f : Logger) (msg : String) (r : Registry) : Registry :=
  logAt r f.logger CRITICAL msg

/-- `Logger.set_level(level)`: parse the level, set it on the backend
logger, store it on the facade, and set it on every attached handler. -/
def Logger.set_level (f : Logger) (level : String) (r : Registry) :
    Logger × Registry :=
  let new_level := getattrLevel level
  let r := updateLogger r f.logger (fun bl => { bl with level := new_level })
  let r := updateLogger r f.logger
    (fun bl => { bl with handlers := bl.handlers.map (fun h => { h with level := new_level }) })
  ({ f with level := new_level }, r)

/-- `Logger.set_level` including the backend's error path: when the
`getattr` lookup finds one of the module's non-integer attributes,
`self.logger.setLevel(new_level)` raises on the next line — before the
facade's stored level and before any handler level is updated — and the
exception propagates with nothing changed.  On every other argument the
call runs to completion as `Logger.set_level`.  The error value is the
offending upper-cased attribute name. -/
def Logger.set_level_checked (f : Logger) (level : String) (r : Registry) :
    Except String (Logger × Registry) :=
  if upperAscii level ∈ nonLevelUpperAttrs then Except.error (upperAscii level)
  else Except.ok (f.set_level level r)

/-- `Logger.add_custom_handler(handler)`: append to the backend handlers. -/
def Logger.add_custom_handler (f : Logger) (h : Handler) (r : Registry) : Registry :=
  updateLogger r f.logger (fun bl => { bl with handlers := bl.handlers ++ [h] })

/-- `Logger.remove_all_handlers()`: clear the backend handler list. -/
def Logger.remove_all_handlers (f : Logger) (r : Registry) : Registry :=
  updateLogger r f.logger (fun bl => { bl with handlers := [] })

/-- `get_central_logger(verbose, log_to_file)`: on first call, construct a
facade named `"CENTRAL"` with path `f"logs/central_{date}.log"` and memoize
`logger_instance.get_logger()`; afterwards return the memoized handle. -/
def get_central_logger (verbose : Bool) (log_to_file : Bool) (today : String)
    (w : World) : String × World :=
  match w.central with
  | some h => (h, w)
  | none =>
    let res := Logger.init "CENTRAL" "INFO" log_to_file
      (some ("logs/central_" ++ today ++ ".log")) verbose today w
    let h := (res.1.get_logger none res.2.registry).1
    (h, { res.2 with central := some h })

/-! ## Observation functions -/

/-- Whether a handler kind is the console handler kind. -/
def isConsole : HandlerKind → Bool
  | HandlerKind.console => true
  | HandlerKind.file _ => false

/-- Whether a handler kind is a file handler kind. -/
def isFile : HandlerKind → Bool
  | HandlerKind.console => false
  | HandlerKind.file _ => true

/-- Total number of records written by the handlers of logger `n` whose
kind satisfies `p` (e.g. the number of console lines). -/
def linesWritten (r : Registry) (n : String) (p : HandlerKind → Bool) : Nat :=
  (((handlersOf r n).filter (fun h => p h.kind)).map (fun h => h.written.length)).sum

/-- The configuration of a handler: everything except its written output. -/
def handlerConfig (h : Handler) : HandlerKind × Nat × String :=
  (h.kind, h.level, h.fmt)

/-- The configuration part of the registry: for every entry its name, its
level and its handlers' configurations, ignoring written output. -/
def regConfig (r : Registry) : List (String × Nat × List (HandlerKind × Nat × String)) :=
  r.map (fun kv => (kv.1, kv.2.level, kv.2.handlers.map handlerConfig))

theorem lookupLogger_cons (kv : String × BackendLogger) (rest : Registry) (n : String) :
    lookupLogger (kv :: rest) n
      = if kv.1 = n then some kv.2 else lookupLogger rest n := rfl

theorem lookupLogger_nil (n : String) : lookupLogger [] n = none := rfl

theorem lookupLogger_append_of_none {r : Registry} {n : String} {bl : BackendLogger}
    (h : lookupLogger r n = none) : lookupLogger (r ++ [(n, bl)]) n = some bl := by
  induction r with
  | nil => simp [lookupLogger_cons, lookupLogger_nil]
  | cons kv rest ih =>
    rw [lookupLogger_cons] at h
    by_cases hk : kv.1 = n
    · rw [if_pos hk] at h; exact absurd h (by simp)
    · rw [if_neg hk] at h
      rw [List.cons_append, lookupLogger_cons, if_neg hk]
      exact ih h

theorem lookupLogger_ensure_self (r : Registry) (n : String) :
    lookupLogger (ensureLogger r n) n
      = some ((lookupLogger r n).getD freshLogger) := by
  unfold ensureLogger
  cases h : lookupLogger r n with
  | some bl => simp [h]
  | none => simp [h, lookupLogger_append_of_none h]

theorem lookupLogger_update_self (r : Registry) (n : String)
    (g : BackendLogger → BackendLogger) :
    lookupLogger (updateLogger r n g) n = (lookupLogger r n).map g := by
  unfold updateLogger
  induction r with
  | nil => simp [lookupLogger_nil]
  | cons kv rest ih =>
    rw [List.map_cons, lookupLogger_cons, lookupLogger_cons]
    by_cases hk : kv.1 = n
    · simp [hk]
    · simp [hk, ih]

theorem lookupLogger_deliverChain (chain : List String) (s : Nat) (msg : String)
    (r : Registry) (n : String) :
    lookupLogger (deliverChain chain s msg r) n
      = if n ∈ chain then (lookupLogger r n).map (handleRecord s msg)
        else lookupLogger r n := by
  unfold deliverChain
  induction r with
  | nil => by_cases h : n ∈ chain <;> simp [lookupLogger_nil, h]
  | cons kv rest ih =>
    rw [List.map_cons, lookupLogger_cons]
    by_cases hk : kv.1 = n
    · subst hk
      by_cases h : kv.1 ∈ chain <;> simp [lookupLogger_cons, h, ih]
    · by_cases h : kv.1 ∈ chain <;>
        by_cases h2 : n ∈ chain <;>
          simp [lookupLogger_cons, hk, h, h2, ih]

theorem loggerLevel_eq (r : Registry) (n : String) :
    loggerLevel r n = ((lookupLogger r n).map BackendLogger.level).getD NOTSET := by
  unfold loggerLevel
  cases lookupLogger r n <;> simp

theorem effectiveLevel_of_ne_zero (r : Registry) (n : String)
    (h : loggerLevel r n ≠ 0) : effectiveLevel r n = loggerLevel r n := by
  unfold effectiveLevel
  simp [List.find?, h]

theorem lookupLogger_logAt_self (r : Registry) (n : String) (s : Nat) (msg : String)
    (hs : ¬ s < effectiveLevel r n) :
    lookupLogger (logAt r n s msg) n = (lookupLogger r n).map (handleRecord s msg) := by
  unfold logAt
  rw [if_neg hs, lookupLogger_deliverChain]
  simp

/-! ## Net effect of `Logger.__init__` on the backend state -/

theorem init_fst (w : World) (name level : String) (ltf : Bool)
    (path? : Option String) (verbose : Bool) (today : String) :
    (Logger.init name level ltf path? verbose today w).1
      = { name := name
          level := if verbose then DEBUG else getattrLevel level
          log_to_file := ltf
          log_file_path := resolvePath path? (defaultLogPath name today)
          logger := name } := by
  unfold Logger.init
  cases ltf <;> rfl

theorem init_lookup (w : World) (name level : String) (ltf : Bool)
    (path? : Option String) (verbose : Bool) (today : String) :
    lookupLogger (Logger.init name level ltf path? verbose today w).2.registry name
      = some { level := if verbose then DEBUG else getattrLevel level
               handlers := consoleHandler (if verbose then DEBUG else getattrLevel level)
                 :: (if ltf then
                      [fileHandler (if verbose then DEBUG else getattrLevel level)
                        (resolvePath path? (defaultLogPath name today))]
                     else []) } := by
  cases ltf <;>
    simp [Logger.init, Logger.setupConsoleHandler, Logger.setupFileHandler,
      lookupLogger_update_self, lookupLogger_ensure_self]

theorem init_central (w : World) (name level : String) (ltf : Bool)
    (path? : Option String) (verbose : Bool) (today : String) :
    (Logger.init name level ltf path? verbose today w).2.central = w.central := by
  cases ltf <;>
    simp [Logger.init, Logger.setupConsoleHandler, Logger.setupFileHandler]

theorem init_dirs_true (w : World) (name level : String) (path? : Option String)
    (verbose : Bool) (today : String) :
    (Logger.init name level true path? verbose today w).2.dirs
      = (if dirname (resolvePath path? (defaultLogPath name today)) ≠ ""
            ∧ dirname (resolvePath path? (defaultLogPath name today)) ∉ w.dirs
         then w.dirs ++ [dirname (resolvePath path? (defaultLogPath name today))]
         else w.dirs) := rfl

theorem init_files_true (w : World) (name level : String) (path? : Option String)
    (verbose : Bool) (today : String) :
    (Logger.init name level true path? verbose today w).2.files
      = (if resolvePath path? (defaultLogPath name today) ∈ w.files then w.files
         else w.files ++ [resolvePath path? (defaultLogPath name today)]) := rfl

/-! ## `dirname` computation on the default log path -/

theorem headThroughLastSlash_cons (c : Char) (cs : List Char) :
    headThroughLastSlash (c :: cs)
      = match headThroughLastSlash cs with
        | [] => if c = '/' then [c] else []
        | t => c :: t := rfl

theorem headThroughLastSlash_no_slash {cs : List Char} (h : ∀ c ∈ cs, c ≠ '/') :
    headThroughLastSlash cs = [] := by
  induction cs with
  | nil => rfl
  | cons c rest ih =>
    rw [headThroughLastSlash_cons, ih (fun x hx => h x (List.mem_cons_of_mem _ hx))]
    simp [h c (List.mem_cons_self _ _)]

theorem dirname_of_logs_prefix {rest : List Char} (h : ∀ c ∈ rest, c ≠ '/')
    {p : String} (hp : p.data = 'l' :: 'o' :: 'g' :: 's' :: '/' :: rest) :
    dirname p = "logs" := by
  have h0 := headThroughLastSlash_no_slash h
  have h1 : headThroughLastSlash ('/' :: rest) = ['/'] := by
    rw [headThroughLastSlash_cons, h0]
    decide
  have h2 : headThroughLastSlash ('s' :: '/' :: rest) = ['s', '/'] := by
    rw [headThroughLastSlash_cons, h1]
  have h3 : headThroughLastSlash ('g' :: 's' :: '/' :: rest) = ['g', 's', '/'] := by
    rw [headThroughLastSlash_cons, h2]
  have h4 : headThroughLastSlash ('o' :: 'g' :: 's' :: '/' :: rest)
      = ['o', 'g', 's', '/'] := by
    rw [headThroughLastSlash_cons, h3]
  have h5 : headThroughLastSlash ('l' :: 'o' :: 'g' :: 's' :: '/' :: rest)
      = ['l', 'o', 'g', 's', '/'] := by
    rw [headThroughLastSlash_cons, h4]
  unfold dirname
  rw [hp, h5]
  decide

theorem dirname_defaultLogPath (name today : String)
    (hn : ∀ c ∈ name.data, c ≠ '/') (ht : ∀ c ∈ today.data, c ≠ '/') :
    dirname (defaultLogPath name today) = "logs" := by
  have hdata : (defaultLogPath name today).data
      = 'l' :: 'o' :: 'g' :: 's' :: '/'
          :: (name.data ++ '_' :: (today.data ++ ['.', 'l', 'o', 'g'])) := by
    have e1 : ("logs/" : String).data = ['l', 'o', 'g', 's', '/'] := rfl
    have e2 : ("_" : String).data = ['_'] := rfl
    have e3 : (".log" : String).data = ['.', 'l', 'o', 'g'] := rfl
    simp [defaultLogPath, String.data_append, e1, e2, e3]
  have hrest : ∀ c ∈ name.data ++ '_' :: (today.data ++ ['.', 'l', 'o', 'g']), c ≠ '/' := by
    intro c hc
    simp only [List.mem_append, List.mem_cons, List.not_mem_nil, or_false] at hc
    rcases hc with hc | hc | hc | hc | hc | hc | hc
    · exact hn c hc
    · subst hc; decide
    · exact ht c hc
    · subst hc; decide
    · subst hc; decide
    · subst hc; decide
    · subst hc; decide
  exact dirname_of_logs_prefix hrest hdata

/-! ## Frame lemmas for emission -/

theorem handlerConfig_writeHandler (s : Nat) (msg : String) (h : Handler) :
    handlerConfig (writeHandler s msg h) = handlerConfig h := by
  unfold writeHandler handlerConfig
  split <;> rfl

theorem regConfig_deliverChain (chain : List String) (s : Nat) (msg : String)
    (r : Registry) : regConfig (deliverChain chain s msg r) = regConfig r := by
  unfold regConfig deliverChain
  rw [List.map_map]
  apply List.map_congr_left
  intro kv _
  by_cases h : kv.1 ∈ chain <;>
    simp [h, handleRecord, Function.comp, List.map_map, handlerConfig_writeHandler]

theorem regConfig_logAt (r : Registry) (n : String) (s : Nat) (msg : String) :
    regConfig (logAt r n s msg) = regConfig r := by
  unfold logAt
  split
  · rfl
  · exact regConfig_deliverChain _ _ _ _

theorem getattrLevel_pos_of_valid (L : String)
    (hvalid : upperAscii L = "DEBUG" ∨ upperAscii L = "INFO" ∨ upperAscii L = "WARNING"
      ∨ upperAscii L = "ERROR" ∨ upperAscii L = "CRITICAL") : 0 < getattrLevel L := by
  rcases hvalid with h|h|h|h|h <;> (unfold getattrLevel; rw [h]; decide)

/-! ## Claim theorems -/

/-- Claim C1: whatever the prior state of the process (in particular after
any number of earlier constructions with the same name), constructing a
`Logger` facade raises no exception and leaves the backend logger keyed by
that name with exactly the handlers attached by this construction — one
console handler, plus one file handler iff `log_to_file` — so a subsequent
log call at an emitted severity (at or above the effective level, which is
positive for every non-NOTSET level) produces exactly one console line
and, iff file logging is enabled, exactly one file line, never one per
construction.  The hypothesis `hsafe` scopes the statement to the
constructions that complete: verbose (the level string is never parsed) or
a level argument on which the backend's parse-and-setLevel is faithfully
modelled and does not raise. -/
theorem c1_handler_idempotence (w : World) (name level : String) (ltf : Bool)
    (path? : Option String) (verbose : Bool) (today msg : String) (s lvl : Nat)
    (hsafe : verbose = true ∨ levelArgSafe level)
    (hlvl : lvl = if verbose then DEBUG else getattrLevel level)
    (hpos : 0 < lvl) (hs : lvl ≤ s) :
    Logger.init_checked name level ltf path? verbose today w
      = Except.ok (Logger.init name level ltf path? verbose today w)
    ∧ handlersOf (Logger.init name level ltf path? verbose today w).2.registry name
      = consoleHandler lvl
        :: (if ltf then
             [fileHandler lvl ((Logger.init name level ltf path? verbose today w).1.log_file_path)]
            else [])
    ∧ linesWritten (logAt (Logger.init name level ltf path? verbose today w).2.registry
        name s msg) name isConsole = 1
    ∧ linesWritten (logAt (Logger.init name level ltf path? verbose today w).2.registry
        name s msg) name isFile = (if ltf then 1 else 0) := by
  have hok : Logger.init_checked name level ltf path? verbose today w
      = Except.ok (Logger.init name level ltf path? verbose today w) := by
    unfold Logger.init_checked
    rcases hsafe with hv | ⟨_, hattr⟩
    · rw [if_neg]
      simp [hv]
    · rw [if_neg]
      simp [hattr]
  have hlook := init_lookup w name level ltf path? verbose today
  rw [← hlvl] at hlook
  have hfst := init_fst w name level ltf path? verbose today
  have hll : loggerLevel (Logger.init name level ltf path? verbose today w).2.registry name
      = lvl := by
    simp [loggerLevel, hlook]
  have heff : effectiveLevel (Logger.init name level ltf path? verbose today w).2.registry name
      = lvl := by
    rw [effectiveLevel_of_ne_zero _ _ (by rw [hll]; omega), hll]
  have hnot : ¬ s < effectiveLevel
      (Logger.init name level ltf path? verbose today w).2.registry name := by
    rw [heff]; omega
  have hlog := lookupLogger_logAt_self
    (Logger.init name level ltf path? verbose today w).2.registry name s msg hnot
  rw [hlook] at hlog
  refine ⟨hok, ?_, ?_, ?_⟩
  · simp [handlersOf, hlook, hfst]
  · cases ltf <;>
      simp [linesWritten, handlersOf, hlog, handleRecord, writeHandler, consoleHandler,
        fileHandler, isConsole, isFile, hs]
  · cases ltf <;>
      simp [linesWritten, handlersOf, hlog, handleRecord, writeHandler, consoleHandler,
        fileHandler, isConsole, isFile, hs]

/-- Concrete instance of `c1_handler_idempotence`: a facade named `"L"` at
level INFO with file logging, then one log call at severity INFO, yields
exactly one console line. -/
theorem c1_witness :
    (levelArgSafe "INFO" ∧ (0 : Nat) < 20 ∧ (20 : Nat) ≤ 20)
    ∧ linesWritten (logAt (Logger.init "L" "INFO" true none false "20260101"
        emptyWorld).2.registry "L" 20 "m") "L" isConsole = 1 :=
  ⟨⟨by decide, by decide, by decide⟩,
    (c1_handler_idempotence emptyWorld "L" "INFO" true none false "20260101" "m" 20 20
      (Or.inr (by decide)) (by decide) (by decide) (by decide)).2.2.1⟩

/-- Claim C2: a second call to `get_central_logger`, with any arguments,
returns exactly the handle memoized by the first call and leaves the whole
process state — hence in particular that handle's level and handler set —
unchanged; the second call's arguments never reach the constructor. -/
theorem c2_central_first_call_wins (w : World) (v1 lt1 : Bool) (d1 : String)
    (v2 lt2 : Bool) (d2 : String) :
    get_central_logger v2 lt2 d2 (get_central_logger v1 lt1 d1 w).2
      = ((get_central_logger v1 lt1 d1 w).1, (get_central_logger v1 lt1 d1 w).2) := by
  cases hc : w.central with
  | some h => simp [get_central_logger, hc]
  | none => simp [get_central_logger, hc, Logger.get_logger, Logger.init]

/-- Claim C3: constructing a `Logger` with `verbose := true` forces the
facade's stored level, the backend logger's level, and the level of every
attached handler to DEBUG, regardless of the `level` string supplied. -/
theorem c3_verbose_forces_debug (w : World) (name level : String) (ltf : Bool)
    (path? : Option String) (today : String) :
    (Logger.init name level ltf path? true today w).1.level = DEBUG
    ∧ loggerLevel (Logger.init name level ltf path? true today w).2.registry name = DEBUG
    ∧ ((handlersOf (Logger.init name level ltf path? true today w).2.registry name).all
        (fun h => h.level == DEBUG)) = true := by
  refine ⟨?_, ?_, ?_⟩
  · simp [init_fst]
  · simp [loggerLevel, init_lookup]
  · cases ltf <;> simp [handlersOf, init_lookup, consoleHandler, fileHandler]

/-- Counterexample to claim C4: the string `"warn"` is not
(case-insensitively) one of DEBUG, INFO, WARNING, ERROR, CRITICAL, yet
constructing a `Logger` with it does not behave like `"INFO"`: the
backend's `getattr` lookup finds the alias `logging.WARN = 30`. -/
theorem c4_counterexample :
    (upperAscii "warn" ≠ "DEBUG" ∧ upperAscii "warn" ≠ "INFO"
      ∧ upperAscii "warn" ≠ "WARNING" ∧ upperAscii "warn" ≠ "ERROR"
      ∧ upperAscii "warn" ≠ "CRITICAL")
    ∧ (Logger.init "L" "warn" false none false "20260101" emptyWorld).1.level = WARNING
    ∧ (Logger.init "L" "INFO" false none false "20260101" emptyWorld).1.level = INFO
    ∧ WARNING ≠ INFO := by
  refine ⟨by decide, by decide, by decide, by decide⟩

/-- Claim C4 as amended: for every ASCII string whose upper-cased form is
none of the ten attributes of the `logging` module reachable through
`getattr(logging, level.upper(), ...)` — the integer level constants
DEBUG, INFO, WARNING, ERROR, CRITICAL, WARN, FATAL, NOTSET, and the
non-integer attributes BASIC_FORMAT and _STYLES on which the backend's
`setLevel` raises — passing it as the level to construction (with
`verbose := false`) or to `set_level` raises nothing and produces exactly
the configuration that passing `"INFO"` produces.  (ASCII is required
because Python's `str.upper()` maps some non-ASCII characters into the
level names, e.g. `"warnıng"` upper-cases to `"WARNING"`.) -/
theorem c4_amended (name s : String) (ltf : Bool) (path? : Option String)
    (today : String) (w : World) (f : Logger) (r : Registry)
    (hascii : asciiOnly s = true)
    (h : upperAscii s ∉
      (["DEBUG", "INFO", "WARNING", "ERROR", "CRITICAL", "WARN", "FATAL", "NOTSET",
        "BASIC_FORMAT", "_STYLES"] : List String)) :
    Logger.init_checked name s ltf path? false today w
      = Except.ok (Logger.init name s ltf path? false today w)
    ∧ Logger.init name s ltf path? false today w
      = Logger.init name "INFO" ltf path? false today w
    ∧ f.set_level_checked s r = Except.ok (f.set_level s r)
    ∧ f.set_level s r = f.set_level "INFO" r := by
  simp only [List.mem_cons, List.not_mem_nil, or_false, not_or] at h
  obtain ⟨h1, h2, h3, h4, h5, h6, h7, h8, h9, h10⟩ := h
  have hs : getattrLevel s = getattrLevel "INFO" := by
    unfold getattrLevel
    simp [h1, h2, h3, h4, h5, h6, h7, h8]
    decide
  have hattr : upperAscii s ∉ nonLevelUpperAttrs := by
    simp [nonLevelUpperAttrs, h9, h10]
  refine ⟨?_, ?_, ?_, ?_⟩
  · unfold Logger.init_checked
    rw [if_neg]
    simp [hattr]
  · unfold Logger.init
    rw [hs]
  · unfold Logger.set_level_checked
    rw [if_neg hattr]
  · unfold Logger.set_level
    rw [hs]

/-- Concrete instance of `c4_amended`: the unrecognized ASCII string
`"TRACE"` behaves exactly like `"INFO"`. -/
theorem c4_amended_witness :
    (asciiOnly "TRACE" = true
      ∧ upperAscii "TRACE" ∉
        (["DEBUG", "INFO", "WARNING", "ERROR", "CRITICAL", "WARN", "FATAL", "NOTSET",
          "BASIC_FORMAT", "_STYLES"] : List String))
    ∧ Logger.init "L" "TRACE" false none false "20260101" emptyWorld
        = Logger.init "L" "INFO" false none false "20260101" emptyWorld :=
  ⟨⟨by decide, by decide⟩,
    (c4_amended "L" "TRACE" false none "20260101" emptyWorld
      (Logger.init "L" "INFO" false none false "20260101" emptyWorld).1 []
      (by decide) (by decide)).2.1⟩

/-- Counterexample to claim C5: the string `"basic_format"` is unknown as
a level name (not case-insensitively one of the five), yet `set_level` on
it does not update anything to INFO: `getattr` finds the non-integer
attribute `logging.BASIC_FORMAT` and the backend's `setLevel` raises
before the facade field, the backend level, or any handler level is
touched. -/
theorem c5_counterexample :
    (upperAscii "basic_format" ≠ "DEBUG" ∧ upperAscii "basic_format" ≠ "INFO"
      ∧ upperAscii "basic_format" ≠ "WARNING" ∧ upperAscii "basic_format" ≠ "ERROR"
      ∧ upperAscii "basic_format" ≠ "CRITICAL")
    ∧ Logger.set_level_checked
        (Logger.init "L" "INFO" false none false "20260101" emptyWorld).1
        "basic_format"
        (Logger.init "L" "INFO" false none false "20260101" emptyWorld).2.registry
      = Except.error "BASIC_FORMAT" :=
  ⟨by decide, rfl⟩

/-- Claim C5 as amended: for every facade whose backend logger exists and
every ASCII level string whose upper-cased form is not one of the
module's non-integer attributes (BASIC_FORMAT, _STYLES — on those
`set_level` raises before updating anything), `set_level` raises nothing
and updates the facade's stored level, the backend logger's level, and the
level of every handler currently attached to it, all to the parsed
level. -/
theorem c5_set_level_updates_all (f : Logger) (level : String) (r : Registry)
    (hsafe : levelArgSafe level)
    (hex : (lookupLogger r f.logger).isSome = true) :
    f.set_level_checked level r = Except.ok (f.set_level level r)
    ∧ (f.set_level level r).1.level = getattrLevel level
    ∧ loggerLevel (f.set_level level r).2 f.logger = getattrLevel level
    ∧ ((handlersOf (f.set_level level r).2 f.logger).all
        (fun h => h.level == getattrLevel level)) = true := by
  obtain ⟨bl, hbl⟩ := Option.isSome_iff_exists.mp hex
  refine ⟨?_, rfl, ?_, ?_⟩
  · unfold Logger.set_level_checked
    rw [if_neg hsafe.2]
  · simp [Logger.set_level, loggerLevel, lookupLogger_update_self, hbl]
  · simp [Logger.set_level, handlersOf, lookupLogger_update_self, hbl, List.all_map,
      Function.comp]

/-- Concrete instance of `c5_set_level_updates_all`: after
`set_level "ERROR"` on a facade built at INFO, the stored level is the
parsed ERROR level. -/
theorem c5_witness :
    (levelArgSafe "ERROR"
      ∧ (lookupLogger (Logger.init "L" "INFO" false none false "20260101"
          emptyWorld).2.registry "L").isSome = true)
    ∧ (((Logger.init "L" "INFO" false none false "20260101" emptyWorld).1.set_level "ERROR"
          (Logger.init "L" "INFO" false none false "20260101" emptyWorld).2.registry).1.level
        = getattrLevel "ERROR") :=
  ⟨⟨by decide, by decide⟩,
    (c5_set_level_updates_all (Logger.init "L" "INFO" false none false "20260101" emptyWorld).1
      "ERROR" (Logger.init "L" "INFO" false none false "20260101" emptyWorld).2.registry
      (by decide) (by decide)).2.1⟩

/-- Claim C6: after `set_level L` for a valid level string `L`, a message
logged at exactly the parsed level of `L` is written by every attached
handler, and a message at any severity strictly below it is suppressed
(the registry is left untouched). -/
theorem c6_level_threshold (f : Logger) (L : String) (r : Registry) (msg : String)
    (s : Nat)
    (hvalid : upperAscii L = "DEBUG" ∨ upperAscii L = "INFO" ∨ upperAscii L = "WARNING"
      ∨ upperAscii L = "ERROR" ∨ upperAscii L = "CRITICAL")
    (hex : (lookupLogger r f.logger).isSome = true)
    (hbelow : s < getattrLevel L) :
    ((handlersOf (logAt (f.set_level L r).2 f.logger (getattrLevel L) msg) f.logger).map
        Handler.written
      = (handlersOf (f.set_level L r).2 f.logger).map
          (fun h => h.written ++ [(getattrLevel L, msg)]))
    ∧ logAt (f.set_level L r).2 f.logger s msg = (f.set_level L r).2 := by
  obtain ⟨bl, hbl⟩ := Option.isSome_iff_exists.mp hex
  have hpos : 0 < getattrLevel L := getattrLevel_pos_of_valid L hvalid
  have hlook2 : lookupLogger (f.set_level L r).2 f.logger
      = some { level := getattrLevel L
               handlers := bl.handlers.map (fun h => { h with level := getattrLevel L }) } := by
    simp [Logger.set_level, lookupLogger_update_self, hbl]
  have hll : loggerLevel (f.set_level L r).2 f.logger = getattrLevel L := by
    simp [loggerLevel, hlook2]
  have heff : effectiveLevel (f.set_level L r).2 f.logger = getattrLevel L := by
    rw [effectiveLevel_of_ne_zero _ _ (by rw [hll]; omega), hll]
  constructor
  · have hnot : ¬ getattrLevel L < effectiveLevel (f.set_level L r).2 f.logger := by
      rw [heff]; exact lt_irrefl _
    have hlog := lookupLogger_logAt_self (f.set_level L r).2 f.logger (getattrLevel L)
      msg hnot
    rw [hlook2] at hlog
    simp [handlersOf, hlog, hlook2, handleRecord, List.map_map, writeHandler, Function.comp]
  · unfold logAt
    rw [if_pos (by rw [heff]; exact hbelow)]

/-- Concrete instance of `c6_level_threshold`: after `set_level "ERROR"`, a
message at severity WARNING (30 < 40) leaves the registry untouched. -/
theorem c6_witness :
    (upperAscii "ERROR" = "ERROR")
    ∧ logAt ((Logger.init "L" "INFO" false none false "20260101" emptyWorld).1.set_level
          "ERROR" (Logger.init "L" "INFO" false none false "20260101" emptyWorld).2.registry).2
        (Logger.init "L" "INFO" false none false "20260101" emptyWorld).1.logger 30 "m"
      = ((Logger.init "L" "INFO" false none false "20260101" emptyWorld).1.set_level "ERROR"
          (Logger.init "L" "INFO" false none false "20260101" emptyWorld).2.registry).2 :=
  ⟨by decide,
    (c6_level_threshold (Logger.init "L" "INFO" false none false "20260101" emptyWorld).1
      "ERROR" (Logger.init "L" "INFO" false none false "20260101" emptyWorld).2.registry
      "m" 30 (Or.inr (Or.inr (Or.inr (Or.inl (by decide)))))
      (by decide) (by decide)).2⟩

/-- Claim C7: `get_logger` with a non-empty module name returns the backend
logger keyed `"{name}.{module}"`; when that child did not yet exist it is
created with no handlers of its own and level NOTSET (so it emits only via
propagation to its ancestors' handlers); `get_logger` with no module name
returns the facade's own backend logger unchanged. -/
theorem c7_get_logger_child (f : Logger) (m : String) (r : Registry)
    (hm : m ≠ "")
    (habs : lookupLogger r (f.name ++ "." ++ m) = none) :
    (f.get_logger (some m) r).1 = f.name ++ "." ++ m
    ∧ handlersOf (f.get_logger (some m) r).2 (f.name ++ "." ++ m) = []
    ∧ loggerLevel (f.get_logger (some m) r).2 (f.name ++ "." ++ m) = NOTSET
    ∧ f.get_logger none r = (f.logger, r) := by
  refine ⟨?_, ?_, ?_, rfl⟩
  · simp [Logger.get_logger, hm]
  · simp [Logger.get_logger, hm, handlersOf, lookupLogger_ensure_self, habs, freshLogger]
  · simp [Logger.get_logger, hm, loggerLevel, lookupLogger_ensure_self, habs, freshLogger]

/-- Concrete instance of `c7_get_logger_child`: on a facade named `"App"`
with an empty registry, `get_logger "core"` returns the key `"App.core"`. -/
theorem c7_witness :
    (("core" : String) ≠ "" ∧ lookupLogger [] ("App" ++ "." ++ "core") = none)
    ∧ (({ name := "App", level := 20, log_to_file := false, log_file_path := "p",
          logger := "App" } : Logger).get_logger (some "core") []).1
        = "App" ++ "." ++ "core" :=
  ⟨⟨by decide, by decide⟩,
    (c7_get_logger_child
      { name := "App", level := 20, log_to_file := false,
        log_file_path := "p", logger := "App" }
      "core" [] (by decide) (by decide)).1⟩

/-- Claim C8: constructing with `log_to_file := true` and no explicit path
raises no exception, resolves the file path to `logs/{name}_{YYYYMMDD}.log`,
ends with the `logs` directory existing (created if absent), opens the log
file, and attaches a file handler writing to that path (after the console
handler).  The hypothesis `hsafe` scopes the statement to the
constructions that complete (verbose, or a level argument on which the
parse is faithful and does not raise); the no-slash hypotheses match
`os.path.dirname` splitting on `/`. -/
theorem c8_default_file_logging (w : World) (name level : String) (verbose : Bool)
    (y mo dy : Nat)
    (hsafe : verbose = true ∨ levelArgSafe level)
    (hn : ∀ c ∈ name.data, c ≠ '/')
    (ht : ∀ c ∈ (formatYYYYMMDD y mo dy).data, c ≠ '/') :
    Logger.init_checked name level true none verbose (formatYYYYMMDD y mo dy) w
      = Except.ok (Logger.init name level true none verbose (formatYYYYMMDD y mo dy) w)
    ∧ (Logger.init name level true none verbose (formatYYYYMMDD y mo dy) w).1.log_file_path
      = "logs/" ++ name ++ "_" ++ formatYYYYMMDD y mo dy ++ ".log"
    ∧ "logs" ∈ (Logger.init name level true none verbose (formatYYYYMMDD y mo dy) w).2.dirs
    ∧ (Logger.init name level true none verbose (formatYYYYMMDD y mo dy) w).1.log_file_path
        ∈ (Logger.init name level true none verbose (formatYYYYMMDD y mo dy) w).2.files
    ∧ handlersOf (Logger.init name level true none verbose
          (formatYYYYMMDD y mo dy) w).2.registry name
        = [consoleHandler
             (Logger.init name level true none verbose (formatYYYYMMDD y mo dy) w).1.level,
           fileHandler
             (Logger.init name level true none verbose (formatYYYYMMDD y mo dy) w).1.level
             (Logger.init name level true none verbose (formatYYYYMMDD y mo dy) w).1.log_file_path] := by
  have hdir := dirname_defaultLogPath name (formatYYYYMMDD y mo dy) hn ht
  have hok : Logger.init_checked name level true none verbose (formatYYYYMMDD y mo dy) w
      = Except.ok (Logger.init name level true none verbose (formatYYYYMMDD y mo dy) w) := by
    unfold Logger.init_checked
    rcases hsafe with hv | ⟨_, hattr⟩
    · rw [if_neg]
      simp [hv]
    · rw [if_neg]
      simp [hattr]
  refine ⟨hok, by simp [init_fst, resolvePath, defaultLogPath], ?_, ?_, ?_⟩
  · rw [init_dirs_true]
    simp only [resolvePath, hdir]
    by_cases hmem : "logs" ∈ w.dirs
    · simp [hmem]
    · simp [hmem]
  · rw [init_files_true]
    simp only [init_fst, resolvePath]
    by_cases hmem : defaultLogPath name (formatYYYYMMDD y mo dy) ∈ w.files
    · simp [hmem]
    · simp [hmem]
  · simp [handlersOf, init_lookup, init_fst]

/-- Concrete instance of `c8_default_file_logging`: a facade named `"App"`
built on 2026-01-02 ends with the `logs` directory existing. -/
theorem c8_witness :
    (levelArgSafe "INFO" ∧ ∀ c ∈ ("App" : String).data, c ≠ '/')
    ∧ "logs" ∈ (Logger.init "App" "INFO" true none false (formatYYYYMMDD 2026 1 2)
        emptyWorld).2.dirs :=
  ⟨⟨by decide, by decide⟩,
    (c8_default_file_logging emptyWorld "App" "INFO" false 2026 1 2
      (Or.inr (by decide)) (by decide) (by decide)).2.2.1⟩

/-- Claim C9: the five logging methods change no configuration: the name,
level and handler configuration (kind, level, format) of every registry
entry are the same before and after the call (in this embedding the facade
record itself is passed by value and never rebuilt, so its `name`,
`level`, `log_to_file` and `log_file_path` fields cannot change; only the
handlers' written output may grow). -/
theorem c9_logging_is_config_frame (f : Logger) (msg : String) (r : Registry) :
    regConfig (f.debug msg r) = regConfig r
    ∧ regConfig (f.info msg r) = regConfig r
    ∧ regConfig (f.warning msg r) = regConfig r
    ∧ regConfig (f.error msg r) = regConfig r
    ∧ regConfig (f.critical msg r) = regConfig r :=
  ⟨regConfig_logAt r f.logger DEBUG msg, regConfig_logAt r f.logger INFO msg,
    regConfig_logAt r f.logger WARNING msg, regConfig_logAt r f.logger ERROR msg,
    regConfig_logAt r f.logger CRITICAL msg⟩

/-- Claim C10: the handle memoized by `get_central_logger` is (a reference
to) the backend logger keyed `"CENTRAL"`; a later direct construction of a
`Logger` named `"CENTRAL"` — one that completes, scoped by `hsafe2` to the
arguments on which the constructor's parse is faithful and raises nothing,
since a construction that raises at `setLevel` leaves the central
configuration intact — leaves the memo in place but replaces that backend
logger's level and entire handler set with the new facade's configuration,
so first-call-wins protects the central configuration only against later
`get_central_logger` calls, not against direct same-name constructions
(the file path resolves through Python's falsy `or`: an empty-string
argument also yields the default path). -/
theorem c10_central_not_protected (w : World) (v lt : Bool) (d : String)
    (hc : w.central = none)
    (level2 : String) (ltf2 : Bool) (path2 : Option String) (verbose2 : Bool)
    (d2 : String)
    (hsafe2 : verbose2 = true ∨ levelArgSafe level2) :
    Logger.init_checked "CENTRAL" level2 ltf2 path2 verbose2 d2
        (get_central_logger v lt d w).2
      = Except.ok (Logger.init "CENTRAL" level2 ltf2 path2 verbose2 d2
          (get_central_logger v lt d w).2)
    ∧ (get_central_logger v lt d w).1 = "CENTRAL"
    ∧ (get_central_logger v lt d w).2.central = some "CENTRAL"
    ∧ (Logger.init "CENTRAL" level2 ltf2 path2 verbose2 d2
        (get_central_logger v lt d w).2).2.central = some "CENTRAL"
    ∧ loggerLevel (Logger.init "CENTRAL" level2 ltf2 path2 verbose2 d2
        (get_central_logger v lt d w).2).2.registry "CENTRAL"
        = (if verbose2 then DEBUG else getattrLevel level2)
    ∧ handlersOf (Logger.init "CENTRAL" level2 ltf2 path2 verbose2 d2
        (get_central_logger v lt d w).2).2.registry "CENTRAL"
        = consoleHandler (if verbose2 then DEBUG else getattrLevel level2)
          :: (if ltf2 then
               [fileHandler (if verbose2 then DEBUG else getattrLevel level2)
                 (resolvePath path2 (defaultLogPath "CENTRAL" d2))]
              else []) := by
  have hok : Logger.init_checked "CENTRAL" level2 ltf2 path2 verbose2 d2
      (get_central_logger v lt d w).2
      = Except.ok (Logger.init "CENTRAL" level2 ltf2 path2 verbose2 d2
          (get_central_logger v lt d w).2) := by
    unfold Logger.init_checked
    rcases hsafe2 with hv | ⟨_, hattr⟩
    · rw [if_neg]
      simp [hv]
    · rw [if_neg]
      simp [hattr]
  have h1 : (get_central_logger v lt d w).1 = "CENTRAL" := by
    simp [get_central_logger, hc, Logger.get_logger, Logger.init]
  have h2 : (get_central_logger v lt d w).2.central = some "CENTRAL" := by
    simp [get_central_logger, hc, Logger.get_logger, Logger.init]
  refine ⟨hok, h1, h2, ?_, ?_, ?_⟩
  · rw [init_central]; exact h2
  · simp [loggerLevel, init_lookup]
  · simp [handlersOf, init_lookup]

/-- Concrete instance of `c10_central_not_protected`: from a fresh process
state, the memoized central handle is the key `"CENTRAL"`. -/
theorem c10_witness :
    (emptyWorld.central = none ∧ levelArgSafe "INFO")
    ∧ (get_central_logger false true "20260101" emptyWorld).1 = "CENTRAL" :=
  ⟨⟨rfl, by decide⟩,
    (c10_central_not_protected emptyWorld false true "20260101" rfl "INFO" false none
      false "20260102" (Or.inr (by decide))).2.1⟩

end LoggerUtil
